import Mathlib

/-!
Shallow embedding of the orapass credential resolver (package `orapass`,
current `Parser` implementation) together with proofs about its claims.

The Go source is embedded as follows:
* strings are Lean `String`s; `strings.ToUpper` is modelled by
  `String.toUpper` (per-character ASCII upper-casing, which agrees with Go
  on the ASCII inputs the file format uses);
* the file system is an explicit map `String → FileInfo` from path names to
  file states (absent / stat failure / non-regular / regular file with
  permission bits and a list of lines);
* process environment and platform data (`ORACLE_*`, `ORAPASSFILE`, `HOME`,
  `APPDATA`, `runtime.GOOS`, the OS user name) are an explicit `Env` record;
* Go errors become the inductive `OraErr`; a `(value, error)` Go return
  becomes a pair with an `Option OraErr` component;
* `filepath.Join dir name` is modelled as `dir ++ "/" ++ name` (with an
  empty `dir` yielding `name`); path cleaning is irrelevant here because the
  file-system map is quantified over all path strings.
-/

namespace Orapass

/-- The `Parser` struct of the Go package: the four query fields, the
resolved password, the orapass file path and the debug flag.  The unexported
`files` slice is modelled as the explicit candidate list built by
`candidateFiles`. -/
structure Parser where
  Host : String
  Port : String
  DbName : String
  Username : String
  Password : String
  OrapassFile : String
  Debug : Bool
deriving Repr, DecidableEq

/-- The zero value of the Go `Parser` struct (`var p2 Parser`). -/
def zeroParser : Parser :=
  { Host := "", Port := "", DbName := "", Username := "", Password := ""
    OrapassFile := "", Debug := false }

/-- State of one path in the modelled file system. -/
inductive FileInfo where
  /-- `os.Stat` fails with a not-exist error. -/
  | absent
  /-- `os.Stat` fails with some other error. -/
  | statError
  /-- The path exists but is not a regular file (e.g. a directory);
  `perms` are its permission bits. -/
  | dir (perms : Nat)
  /-- A regular file with the given permission bits (the nine low mode
  bits, as `permbits.Stat` reports) and content split into lines. -/
  | regular (perms : Nat) (lines : List String)
deriving Repr, DecidableEq

/-- Errors produced along the resolution paths of the Go code. -/
inductive OraErr where
  /-- A stat failure propagated from `os.Stat` / `permbits.Stat` for the
  given path (this includes the not-exist error that `permbits.Stat`
  propagates, unlike `fileExists` which swallows it). -/
  | statErr (path : String)
  /-- A failure to open/read the file in `searchFile`. -/
  | openErr (path : String)
  /-- The permission-policy error built by `checkFilePerms`, carrying its
  message string. -/
  | permErr (msg : String)
  /-- `errors.New("Could not find a suitable password entry")`. -/
  | noEntry
deriving Repr, DecidableEq

/-- Environment and platform inputs read by the Go code
(`os.Getenv`, `runtime.GOOS`, `user.Current`). -/
structure Env where
  goos : String
  oracleHost : String
  oraclePort : String
  oracleSid : String
  oracleUser : String
  /-- `os.Getenv "ORAPASSFILE"`. -/
  orapassFileEnv : String
  home : String
  appdata : String
  /-- `user.Current().Username`, or `""` when `user.Current` fails. -/
  osUser : String
deriving Repr, DecidableEq

/-- Go function `coalesce`: picks the first non-empty string from a list. -/
def coalesce : List String → String
  | [] => ""
  | v :: rest => if v ≠ "" then v else coalesce rest

/-- ASCII upper-casing of one character, as `strings.ToUpper` maps the
characters that occur in an orapass file. -/
def charToUpper (c : Char) : Char :=
  if 'a' ≤ c ∧ c ≤ 'z' then Char.ofNat (c.toNat - 32) else c

/-- Model of `strings.ToUpper`, modelled character-wise (Go also maps non-ASCII
letters; the model restricts the mapping to ASCII). -/
def goToUpper (s : String) : String := ⟨s.data.map charToUpper⟩

/-- Go function `chkForMatch`: checks the calling parameter against the same file
parameter, taking into account wild-card characters, and returns true on a
match (current `Parser` variant: the wildcard arm also requires a non-empty
calling parameter). -/
def chkForMatch (callingParm fileParm : String) : Bool :=
  if goToUpper callingParm = goToUpper fileParm then true
  else if fileParm = "*" ∧ callingParm ≠ "" then true
  else false

/-- The field-match predicate as the spec's words describe it:
case-insensitive equality, OR the file's field is literally `*`
(unconditional wildcard-on-file-side).  Kept separate from `chkForMatch`
so the two can be compared. -/
def specFieldMatch (callingParm fileParm : String) : Bool :=
  if goToUpper callingParm = goToUpper fileParm then true
  else if fileParm = "*" then true
  else false

/-- Go function `pickParm`: chooses between the calling parameter and the file
parameter and returns the appropriate value. -/
def pickParm (callingParm fileParm : String) : String :=
  if fileParm ≠ "*" ∧ fileParm ≠ "" then fileParm else callingParm

/-- The comment test `regexp.MustCompile("^ *#").MatchString line`:
zero or more spaces at the start of the line followed by `#`. -/
def isComment (line : String) : Bool :=
  match line.data.dropWhile (fun c => c == ' ') with
  | '#' :: _ => true
  | _ => false

/-- Split a character list at its first occurrence of `sep`:
`some (before, after)`, or `none` when `sep` does not occur. -/
def splitFirst (sep : Char) : List Char → Option (List Char × List Char)
  | [] => none
  | c :: cs =>
    if c = sep then some ([], cs)
    else
      match splitFirst sep cs with
      | none => none
      | some (pre, post) => some (c :: pre, post)

/-- The character-list core of Go's `strings.SplitN` with a single-character
separator: at most `n` parts, the last part keeping the remainder
(including further separators). -/
def splitNAux (sep : Char) : Nat → List Char → List (List Char)
  | 0, _ => []
  | 1, cs => [cs]
  | n + 2, cs =>
    match splitFirst sep cs with
    | none => [cs]
    | some (pre, post) => pre :: splitNAux sep (n + 1) post

/-- Model of `strings.SplitN s sep n` for a one-character separator. -/
def splitN (s : String) (sep : Char) (n : Nat) : List String :=
  (splitNAux sep n s.data).map (fun cs => ⟨cs⟩)

/-- One iteration of the scan loop of `searchFile`: `none` when the line is
skipped (comment, or fewer than 5 fields) or does not match; `some p2` with
the composed result record when all four fields match. -/
def processLine (p : Parser) (line : String) : Option Parser :=
  if isComment line then none
  else
    match splitN line ':' 5 with
    | t0 :: t1 :: t2 :: t3 :: t4 :: _ =>
      if chkForMatch p.Host t0 && chkForMatch p.Port t1 &&
         chkForMatch p.DbName t2 && chkForMatch p.Username t3 then
        some { zeroParser with
          Host := pickParm p.Host t0
          Port := pickParm p.Port t1
          DbName := pickParm p.DbName t2
          Username := t3
          Password := t4 }
      else none
    | _ => none

/-- The line-scanning loop of `searchFile` over the file's lines: return the
record of the first matching line, or the not-found error after exhausting
the file. -/
def scanLines (p : Parser) : List String → Parser × Option OraErr
  | [] => (zeroParser, some OraErr.noEntry)
  | line :: rest =>
    match processLine p line with
    | some p2 => (p2, none)
    | none => scanLines p rest

/-- Go function `fileExists`: checks that the path exists and is a regular file; a
non-existent file is not an error, any other stat failure is. -/
def fileExists (fs : String → FileInfo) (pathname : String) :
    Except OraErr Bool :=
  match fs pathname with
  | FileInfo.absent => Except.ok false
  | FileInfo.statError => Except.error (OraErr.statErr pathname)
  | FileInfo.dir _ => Except.ok false
  | FileInfo.regular _ _ => Except.ok true

/-- Model of `permbits.Stat`: permission bits of the path, or the stat error
(a not-exist failure is an error here, unlike in `fileExists`). -/
def permbitsStat (fs : String → FileInfo) (path : String) :
    Except OraErr Nat :=
  match fs path with
  | FileInfo.absent => Except.error (OraErr.statErr path)
  | FileInfo.statError => Except.error (OraErr.statErr path)
  | FileInfo.dir perms => Except.ok perms
  | FileInfo.regular perms _ => Except.ok perms

/-- Render a natural number in octal, as Go's `%o` verb does. -/
def toOctal (n : Nat) : String := ⟨Nat.toDigits 8 n⟩

/-- The message of the permission-policy error built in `checkFilePerms`. -/
def permErrMsg (perms : Nat) : String :=
  "Permissions on file are incorrect. Should be 600, got " ++ toOctal perms

/-- Go function `checkFilePerms`: verifies the permissions on the orapass file. -/
def checkFilePerms (fs : String → FileInfo) (p : Parser) :
    Bool × Option OraErr :=
  match permbitsStat fs p.OrapassFile with
  | Except.error e => (false, some e)
  | Except.ok perms =>
    if perms ≠ 0o600 then (true, some (OraErr.permErr (permErrMsg perms)))
    else (true, none)

/-- Model of `os.Open` plus reading all lines with the `bufio.Scanner`: the lines of
a regular file, an error otherwise (opening a directory also surfaces as a
read error in the Go code). -/
def openAndRead (fs : String → FileInfo) (path : String) :
    Except OraErr (List String) :=
  match fs path with
  | FileInfo.regular _ lines => Except.ok lines
  | _ => Except.error (OraErr.openErr path)

/-- Go function `searchFile`: searches the orapass file for a matching entry; if more
than one entry could match then the first matching entry is returned. -/
def searchFile (fs : String → FileInfo) (p : Parser) :
    Parser × Option OraErr :=
  match openAndRead fs p.OrapassFile with
  | Except.error e => (zeroParser, some e)
  | Except.ok lines => scanLines p lines

/-- Model of `filepath.Join` restricted to the joins the Go code performs. -/
def joinPath (dir name : String) : String :=
  if dir = "" then name else dir ++ "/" ++ name

/-- Go function `appendFileList`: appends `f` to the candidate list when non-empty. -/
def appendFileList (files : List String) (f : String) : List String :=
  if f ≠ "" then files ++ [f] else files

/-- The ordered candidate list that `findPasswordFile` assembles:
explicit path, `ORAPASSFILE`, then the two platform-default locations. -/
def candidateFiles (env : Env) (p : Parser) : List String :=
  let fs1 := appendFileList (appendFileList [] p.OrapassFile) env.orapassFileEnv
  if env.goos = "windows" then
    appendFileList
      (appendFileList fs1 (joinPath (joinPath env.appdata "oracle") ".orapass"))
      (joinPath (joinPath env.appdata "oracle") "orapass")
  else
    appendFileList (appendFileList fs1 (joinPath env.home ".orapass"))
      (joinPath env.home "orapass")

/-- The candidate loop of `findPasswordFile`: stat error aborts, the first
existing regular file is recorded in `OrapassFile`, and exhausting the list
returns `p` unchanged with no error (`carp "No orapass file found"`). -/
def findFileLoop (fs : String → FileInfo) (p : Parser) :
    List String → Parser × Option OraErr
  | [] => (p, none)
  | f :: rest =>
    match fileExists fs f with
    | Except.error e => (p, some e)
    | Except.ok true => ({ p with OrapassFile := f }, none)
    | Except.ok false => findFileLoop fs p rest

/-- Go function `findPasswordFile`: searches for an orapass file and records the first
one found. -/
def findPasswordFile (fs : String → FileInfo) (env : Env) (p : Parser) :
    Parser × Option OraErr :=
  findFileLoop fs p (candidateFiles env p)

/-- The default-substitution step at the top of `GetPasswd`: each empty
query field falls back to its environment override, then its hard-coded
default (`DbName` has none; the username default is the OS user). -/
def applyDefaults (env : Env) (p : Parser) : Parser :=
  { p with
    Host := coalesce [p.Host, env.oracleHost, "localhost"]
    Port := coalesce [p.Port, env.oraclePort, "1521"]
    DbName := coalesce [p.DbName, env.oracleSid]
    Username := coalesce [p.Username, env.oracleUser, env.osUser] }

/-- The permission-check step of `GetPasswd` followed by the scan: abort
with the permission error, or search the file. -/
def afterPermCheck (fs : String → FileInfo) (p1 : Parser) :
    Parser × Option OraErr :=
  match checkFilePerms fs p1 with
  | (_, some e) => (zeroParser, some e)
  | (_, none) => searchFile fs p1

/-- Steps B-D of `GetPasswd` on an already-defaulted query: locate the
file, check its permissions on non-Windows platforms, then scan it. -/
def resolveWithFile (fs : String → FileInfo) (env : Env) (p : Parser) :
    Parser × Option OraErr :=
  match findPasswordFile fs env p with
  | (_, some e) => (zeroParser, some e)
  | (p1, none) =>
    if env.goos ≠ "windows" then afterPermCheck fs p1
    else searchFile fs p1

/-- Go function `GetPasswd`: retrieves the password entry for the specified
(host, port, database, username) query. -/
def GetPasswd (fs : String → FileInfo) (env : Env) (p0 : Parser) :
    Parser × Option OraErr :=
  resolveWithFile fs env (applyDefaults env p0)

/-! ### Concrete fixtures used by witnesses and counterexamples -/

/-- A Unix-like environment with every variable empty. -/
def envUnix : Env :=
  { goos := "linux", oracleHost := "", oraclePort := "", oracleSid := ""
    oracleUser := "", orapassFileEnv := "", home := "", appdata := ""
    osUser := "" }

/-- A file system in which every path is absent. -/
def fsEmpty : String → FileInfo := fun _ => FileInfo.absent

/-- The canonical query of the repository's tests. -/
def qScott : Parser :=
  { Host := "localhost", Port := "1521", DbName := "emp", Username := "scott"
    Password := "", OrapassFile := "", Debug := false }

/-- Fixture `qScott` with an explicit orapass file path. -/
def qScottF : Parser := { qScott with OrapassFile := "pwfile" }

/-- A file system holding a well-permissioned orapass file whose matching
line has `*` as its username field. -/
def fsStarUser : String → FileInfo := fun path =>
  if path = "pwfile" then
    FileInfo.regular 0o600 ["localhost:1521:emp:*:secret"]
  else FileInfo.absent

/-- A file system whose orapass file has mode 0644 and a matching entry. -/
def fs644 : String → FileInfo := fun path =>
  if path = "pwfile" then
    FileInfo.regular 0o644 ["localhost:1521:emp:scott:tiger"]
  else FileInfo.absent

/-- The value of `applyDefaults envUnix zeroParser`. -/
def pLocal : Parser :=
  { Host := "localhost", Port := "1521", DbName := "", Username := ""
    Password := "", OrapassFile := "", Debug := false }

/-- The record composed from the line `localhost:1521:emp:scott:tiger`
for the query `qScott`. -/
def recTiger : Parser :=
  { Host := "localhost", Port := "1521", DbName := "emp", Username := "scott"
    Password := "tiger", OrapassFile := "", Debug := false }

/-- A query whose fields literally equal the first four fields of the line
`host:1521:db:user:...`. -/
def qC5 : Parser :=
  { Host := "host", Port := "1521", DbName := "db", Username := "user"
    Password := "", OrapassFile := "", Debug := false }

/-- A query crafted to match a line that starts with a tab and `#`. -/
def qTab : Parser :=
  { Host := "\t#h", Port := "1", DbName := "d", Username := "u"
    Password := "", OrapassFile := "", Debug := false }

example : toOctal 0o644 = "644" := by decide
example : toOctal 0 = "0" := by decide
example : splitN "host:1521:db:user:pa:ss:word" ':' 5 =
    ["host", "1521", "db", "user", "pa:ss:word"] := by decide
example : splitN "" ':' 5 = [""] := by decide
example : isComment "   # x" = true := by decide
example : isComment "a # x" = false := by decide
example : chkForMatch "" "*" = false := by decide
example : chkForMatch "scott" "*" = true := by decide
example : chkForMatch "LOCALHOST" "localhost" = true := by decide
example : GetPasswd fsEmpty envUnix zeroParser =
    (zeroParser, some (OraErr.statErr "")) := by decide

/-! ### Helper lemmas -/

/-- Lemma: `pickParm` can only return `"*"` when the calling parameter itself is
`"*"`: the file-side wildcard never leaks into the result through the
first three fields. -/
theorem pickParm_eq_star (c f : String) (h : pickParm c f = "*") :
    c = "*" := by
  unfold pickParm at h
  split at h
  · next hf => exact absurd h hf.1
  · exact h

/-- Lemma: `pickParm` written as the spec describes the composition rule: the
file's literal value unless it is `*` or empty, else the caller's value. -/
theorem pickParm_eq_ite (c f : String) :
    pickParm c f = if f = "*" ∨ f = "" then c else f := by
  unfold pickParm
  split_ifs with h1 h2 <;> tauto

/-! ### C1 -/

/-- C1, counterexample: the claim states that a file field of `*` matches
every query value, including an empty one; the scan predicate
`chkForMatch` of the current code returns `false` for an empty query value
against a file field `*`, while the predicate built from the spec's words
returns `true` there. -/
theorem C1_counterexample :
    chkForMatch "" "*" = false ∧ specFieldMatch "" "*" = true := by decide

/-- C1, amended: the field-match predicate returns `true` iff the file's
field equals the query's field under case-insensitive (upper-cased)
comparison, or the file's field is literally `*` AND the query's field is
non-empty; a file field of `*` does not match an empty query value. -/
theorem C1_chkForMatch_iff (callingParm fileParm : String) :
    chkForMatch callingParm fileParm = true ↔
      (goToUpper callingParm = goToUpper fileParm ∨
        (fileParm = "*" ∧ callingParm ≠ "")) := by
  unfold chkForMatch
  split_ifs with h1 h2 <;> simp_all

/-! ### C7 -/

/-- C7: before any file search (`GetPasswd` resolves the file only for the
defaulted query), each empty query field is replaced by the first
non-empty value among its environment override and its hard-coded default:
`localhost` for host, `1521` for port, the OS-reported user for username;
the database has no hard-coded default and may remain empty. -/
theorem C7_default_substitution (fs : String → FileInfo) (env : Env)
    (p : Parser) :
    (applyDefaults env p).Host =
      (if p.Host ≠ "" then p.Host
       else if env.oracleHost ≠ "" then env.oracleHost else "localhost") ∧
    (applyDefaults env p).Port =
      (if p.Port ≠ "" then p.Port
       else if env.oraclePort ≠ "" then env.oraclePort else "1521") ∧
    (applyDefaults env p).DbName =
      (if p.DbName ≠ "" then p.DbName else env.oracleSid) ∧
    (applyDefaults env p).Username =
      (if p.Username ≠ "" then p.Username
       else if env.oracleUser ≠ "" then env.oracleUser else env.osUser) ∧
    GetPasswd fs env p = resolveWithFile fs env (applyDefaults env p) := by
  refine ⟨?_, ?_, ?_, ?_, rfl⟩ <;>
    simp only [applyDefaults, coalesce] <;> split_ifs <;> simp_all

/-! ### C2 -/

/-- C2, counterexample: with every candidate path absent the candidate
search exhausts without locating a file, yet resolution ends with the stat
error from the (not skipped) permission check, not with the
"no password entry found" failure. -/
theorem C2_counterexample :
    GetPasswd fsEmpty envUnix zeroParser =
      (zeroParser, some (OraErr.statErr "")) ∧
    OraErr.statErr "" ≠ OraErr.noEntry := by decide

/-- C2, amended: when the candidate search exhausts all candidates without
locating a usable file, `findPasswordFile` reports no error and leaves the
stored path unchanged; on non-Windows platforms the permission check is
NOT skipped: it stats that path, and resolution ends with the resulting
stat error rather than with the "no password entry found" failure. -/
theorem C2_no_skip_stat_error (fs : String → FileInfo) (env : Env)
    (p p1 : Parser)
    (hw : env.goos ≠ "windows")
    (hfind : findPasswordFile fs env (applyDefaults env p) = (p1, none))
    (habs : fs p1.OrapassFile = FileInfo.absent) :
    GetPasswd fs env p = (zeroParser, some (OraErr.statErr p1.OrapassFile)) ∧
    OraErr.statErr p1.OrapassFile ≠ OraErr.noEntry := by
  constructor
  · unfold GetPasswd resolveWithFile
    rw [hfind]
    simp [hw, afterPermCheck, checkFilePerms, permbitsStat, habs]
  · simp

/-- C2, witness: the amended theorem applied to the all-absent file
system. -/
theorem C2_witness :
    GetPasswd fsEmpty envUnix zeroParser =
      (zeroParser, some (OraErr.statErr "")) ∧
    OraErr.statErr "" ≠ OraErr.noEntry := by
  have h := C2_no_skip_stat_error fsEmpty envUnix zeroParser pLocal
    (by decide) (by decide) (by decide)
  exact ⟨h.1.trans (by decide), by decide⟩

/-! ### C6 -/

/-- C6: on non-Windows platforms, when the candidate search resolves a
regular file whose permission bits are not exactly `0600`, resolution
fails immediately with the permission-policy error whose message carries
the expected mode (`600`) and the actual mode rendered in octal,
regardless of the file's lines. -/
theorem C6_bad_perms_error (fs : String → FileInfo) (env : Env)
    (p p1 : Parser) (perms : Nat) (lines : List String)
    (hw : env.goos ≠ "windows")
    (hfind : findPasswordFile fs env (applyDefaults env p) = (p1, none))
    (hreg : fs p1.OrapassFile = FileInfo.regular perms lines)
    (hperm : perms ≠ 0o600) :
    GetPasswd fs env p =
      (zeroParser, some (OraErr.permErr
        ("Permissions on file are incorrect. Should be 600, got " ++
          toOctal perms))) := by
  unfold GetPasswd resolveWithFile
  rw [hfind]
  simp [hw, afterPermCheck, checkFilePerms, permbitsStat, hreg, hperm,
    permErrMsg]

/-- C6, witness: a mode-0644 file containing a line that matches the query
still yields the permission-policy error with `600` and `644` in the
message. -/
theorem C6_witness :
    GetPasswd fs644 envUnix qScottF =
      (zeroParser, some (OraErr.permErr
        "Permissions on file are incorrect. Should be 600, got 644")) := by
  have h := C6_bad_perms_error fs644 envUnix qScottF qScottF 0o644
    ["localhost:1521:emp:scott:tiger"] (by decide) (by decide) (by decide)
    (by decide)
  exact h.trans (by decide)

/-! ### C9 -/

/-- If the scan loop ends in an error, the record component is the zero
record. -/
theorem scanLines_error_zero (p : Parser) (lines : List String)
    (rec : Parser) (e : OraErr)
    (h : scanLines p lines = (rec, some e)) : rec = zeroParser := by
  induction lines with
  | nil =>
    unfold scanLines at h
    injection h with h1 h2
    exact h1.symm
  | cons line rest ih =>
    unfold scanLines at h
    cases hp : processLine p line with
    | some p2 =>
      rw [hp] at h
      injection h with h1 h2
      exact absurd h2 (by simp)
    | none =>
      rw [hp] at h
      exact ih h

/-- If `searchFile` ends in an error, the record component is the zero
record. -/
theorem searchFile_error_zero (fs : String → FileInfo) (p : Parser)
    (e : OraErr) (h : (searchFile fs p).2 = some e) :
    (searchFile fs p).1 = zeroParser := by
  unfold searchFile at h ⊢
  cases ho : openAndRead fs p.OrapassFile with
  | error e2 => rfl
  | ok lines =>
    rw [ho] at h
    replace h : (scanLines p lines).2 = some e := h
    show (scanLines p lines).1 = zeroParser
    exact scanLines_error_zero p lines _ e (by rw [← h])

/-- If the permission-check-then-scan step ends in an error, the record
component is the zero record. -/
theorem afterPermCheck_error_zero (fs : String → FileInfo) (p1 : Parser)
    (e : OraErr) (h : (afterPermCheck fs p1).2 = some e) :
    (afterPermCheck fs p1).1 = zeroParser := by
  unfold afterPermCheck at h ⊢
  rcases hc : checkFilePerms fs p1 with ⟨b, ec⟩
  rw [hc] at h
  cases ec with
  | some e2 => rfl
  | none => exact searchFile_error_zero fs p1 e h

/-- C9: whenever `GetPasswd` returns an error - no matter which of the
file-access, permission, read or not-found paths produced it - the record
it returns alongside is the zero record with every field empty. -/
theorem C9_error_zero_record (fs : String → FileInfo) (env : Env)
    (p : Parser) (e : OraErr)
    (h : (GetPasswd fs env p).2 = some e) :
    (GetPasswd fs env p).1 = zeroParser := by
  unfold GetPasswd resolveWithFile at h ⊢
  rcases hf : findPasswordFile fs env (applyDefaults env p) with ⟨p1, e1⟩
  rw [hf] at h
  cases e1 with
  | some e2 => rfl
  | none =>
    replace h : (if env.goos ≠ "windows" then afterPermCheck fs p1
        else searchFile fs p1).2 = some e := h
    show (if env.goos ≠ "windows" then afterPermCheck fs p1
        else searchFile fs p1).1 = zeroParser
    by_cases hw : env.goos ≠ "windows"
    · rw [if_pos hw] at h ⊢
      exact afterPermCheck_error_zero fs p1 e h
    · rw [if_neg hw] at h ⊢
      exact searchFile_error_zero fs p1 e h

/-- C9, witness: the error returned for the all-absent file system comes
with the zero record. -/
theorem C9_witness : (GetPasswd fsEmpty envUnix zeroParser).1 = zeroParser :=
  C9_error_zero_record fsEmpty envUnix zeroParser (OraErr.statErr "")
    (by decide)

/-! ### C3 -/

/-- Any record produced by a matching line is composed through `pickParm`
on its first three fields, with username and password taken verbatim from
the line's fields. -/
theorem processLine_some_shape (p : Parser) (line : String) (p2 : Parser)
    (h : processLine p line = some p2) :
    ∃ t0 t1 t2 t3 t4,
      p2 = { zeroParser with
        Host := pickParm p.Host t0
        Port := pickParm p.Port t1
        DbName := pickParm p.DbName t2
        Username := t3
        Password := t4 } := by
  unfold processLine at h
  split at h
  · exact absurd h (by simp)
  · split at h
    · next t0 t1 t2 t3 t4 rest5 heq =>
      split at h
      · exact ⟨t0, t1, t2, t3, t4, (Option.some.inj h).symm⟩
      · exact absurd h (by simp)
    · exact absurd h (by simp)

/-- C3, counterexample: the claim states no field of a successfully
resolved record is `*`; resolving the query `qScottF` against a file whose
matching line carries `*` as its username field succeeds and returns a
record whose username is literally `*` (the username is copied verbatim
from the file). -/
theorem C3_counterexample :
    (GetPasswd fsStarUser envUnix qScottF).2 = none ∧
    (GetPasswd fsStarUser envUnix qScottF).1.Username = "*" := by decide

/-- C3, amended: in a successfully returned record the host, port and
database fields can be the wildcard marker `*` only when the caller's own
query value is `*` (a file-side `*` or empty field in those positions is
replaced by the caller's value); the username and password fields are
taken verbatim from the file and may be `*`. -/
theorem C3_wildcard_fields (p p2 : Parser) (lines : List String)
    (h : scanLines p lines = (p2, none)) :
    (p2.Host = "*" → p.Host = "*") ∧ (p2.Port = "*" → p.Port = "*") ∧
    (p2.DbName = "*" → p.DbName = "*") := by
  induction lines with
  | nil =>
    unfold scanLines at h
    injection h with h1 h2
    exact absurd h2 (by simp)
  | cons line rest ih =>
    unfold scanLines at h
    cases hp : processLine p line with
    | none => rw [hp] at h; exact ih h
    | some q =>
      rw [hp] at h
      injection h with h1 h2
      subst h1
      obtain ⟨t0, t1, t2, t3, t4, hq⟩ := processLine_some_shape p line _ hp
      subst hq
      exact ⟨fun hs => pickParm_eq_star _ _ hs,
        fun hs => pickParm_eq_star _ _ hs,
        fun hs => pickParm_eq_star _ _ hs⟩

/-- C3, witness: the amended statement applied to a resolved record. -/
theorem C3_witness :
    (recTiger.Host = "*" → qScott.Host = "*") ∧
    (recTiger.Port = "*" → qScott.Port = "*") ∧
    (recTiger.DbName = "*" → qScott.DbName = "*") :=
  C3_wildcard_fields qScott recTiger ["localhost:1521:emp:scott:tiger"]
    (by decide)

/-! ### C4 -/

/-- C4: first-match-wins - if every line before `line` is skipped or fails
the four-field match, and `line` matches producing `p2`, then the scan of
the whole file returns `p2`, whatever lines (matching or not) come
after. -/
theorem C4_first_match_wins (p : Parser) (pre : List String) (line : String)
    (post : List String) (p2 : Parser)
    (hpre : ∀ l ∈ pre, processLine p l = none)
    (hline : processLine p line = some p2) :
    scanLines p (pre ++ line :: post) = (p2, none) := by
  induction pre with
  | nil =>
    show scanLines p (line :: post) = (p2, none)
    unfold scanLines
    rw [hline]
  | cons a rest ih =>
    have ha : processLine p a = none := hpre a (List.mem_cons_self a rest)
    show scanLines p (a :: (rest ++ line :: post)) = (p2, none)
    unfold scanLines
    rw [ha]
    exact ih (fun l hl => hpre l (List.mem_cons_of_mem a hl))

/-- C4, witness: with two earlier non-matching lines and a later line that
would also match, the scan returns the record of the earliest matching
line. -/
theorem C4_witness :
    scanLines qScott
      ["# comment", "otherhost:1521:emp:scott:bad",
        "localhost:1521:emp:scott:tiger", "localhost:1521:*:scott:lion"] =
      (recTiger, none) :=
  C4_first_match_wins qScott ["# comment", "otherhost:1521:emp:scott:bad"]
    "localhost:1521:emp:scott:tiger" ["localhost:1521:*:scott:lion"]
    recTiger (by decide) (by decide)

/-! ### C8 -/

/-- A line that splits into fewer than five fields is skipped. -/
theorem processLine_short (p : Parser) (line : String)
    (h : (splitN line ':' 5).length < 5) : processLine p line = none := by
  unfold processLine
  split
  · rfl
  · rcases hsp : splitN line ':' 5 with
      - | ⟨t0, - | ⟨t1, - | ⟨t2, - | ⟨t3, - | ⟨t4, rest5⟩⟩⟩⟩⟩
    · rfl
    · rfl
    · rfl
    · rfl
    · rfl
    · rw [hsp] at h
      simp only [List.length_cons] at h
      omega

/-- C8, counterexample: the claim describes the comment pattern as
optional leading whitespace before `#`, but the code's pattern `^ *#`
accepts only spaces; a line starting with a tab and `#` that splits into
five fields is not skipped - here it even matches a query and yields a
record instead of the not-found error. -/
theorem C8_counterexample :
    (scanLines qTab ["\t#h:1:d:u:pw"]).2 = none ∧
    (scanLines qTab ["\t#h:1:d:u:pw"]).1.Password = "pw" := by decide

/-- C8, amended: every line that is blank, splits into fewer than five
colon-separated fields, or consists of optional leading SPACES (not
arbitrary whitespace) followed by `#` is skipped without producing an
error; a file consisting only of such lines yields the not-found error
after the scan exhausts the file. -/
theorem C8_skippable_lines (p : Parser) (lines : List String)
    (h : ∀ l ∈ lines,
      isComment l = true ∨ l = "" ∨ (splitN l ':' 5).length < 5) :
    scanLines p lines = (zeroParser, some OraErr.noEntry) := by
  induction lines with
  | nil => rfl
  | cons a rest ih =>
    have ha := h a (List.mem_cons_self a rest)
    have hp : processLine p a = none := by
      rcases ha with hc | hb | hl
      · unfold processLine; rw [if_pos hc]
      · subst hb; exact processLine_short p "" (by decide)
      · exact processLine_short p a hl
    unfold scanLines
    rw [hp]
    exact ih (fun l hl => h l (List.mem_cons_of_mem a hl))

/-- C8, witness: a file of a comment line, a blank line, an
indented-with-spaces comment line and a four-field line yields the
not-found error. -/
theorem C8_witness :
    scanLines qScott ["# comment", "", "   # indented", "four:a:b:c"] =
      (zeroParser, some OraErr.noEntry) :=
  C8_skippable_lines qScott ["# comment", "", "   # indented", "four:a:b:c"]
    (by decide)

/-! ### C5 -/

/-- Splitting at the first separator of `a ++ sep :: rest` cuts exactly
after `a` when `a` is separator-free. -/
theorem splitFirst_append (sep : Char) (a rest : List Char)
    (ha : sep ∉ a) : splitFirst sep (a ++ sep :: rest) = some (a, rest) := by
  induction a with
  | nil => simp [splitFirst]
  | cons c cs ih =>
    have hc : ¬ c = sep := fun hcs => ha (by simp [hcs])
    have hcs2 : sep ∉ cs := fun hm => ha (List.mem_cons_of_mem c hm)
    simp [splitFirst, hc, ih hcs2]

/-- With a part budget of one, the whole remainder is the single part. -/
theorem splitNAux_one (sep : Char) (cs : List Char) :
    splitNAux sep 1 cs = [cs] := rfl

/-- One unfolding step of `splitNAux` at a budget of at least two. -/
theorem splitNAux_cons (sep : Char) (n : Nat) (a rest : List Char)
    (ha : sep ∉ a) :
    splitNAux sep (n + 2) (a ++ sep :: rest) =
      a :: splitNAux sep (n + 1) rest := by
  conv_lhs => rw [splitNAux]
  rw [splitFirst_append sep a rest ha]

/-- Specialization of `splitNAux_cons` at budget 5. -/
theorem splitNAux_cons5 (a rest : List Char) (ha : ':' ∉ a) :
    splitNAux ':' 5 (a ++ ':' :: rest) = a :: splitNAux ':' 4 rest :=
  splitNAux_cons ':' 3 a rest ha

/-- Specialization of `splitNAux_cons` at budget 4. -/
theorem splitNAux_cons4 (a rest : List Char) (ha : ':' ∉ a) :
    splitNAux ':' 4 (a ++ ':' :: rest) = a :: splitNAux ':' 3 rest :=
  splitNAux_cons ':' 2 a rest ha

/-- Specialization of `splitNAux_cons` at budget 3. -/
theorem splitNAux_cons3 (a rest : List Char) (ha : ':' ∉ a) :
    splitNAux ':' 3 (a ++ ':' :: rest) = a :: splitNAux ':' 2 rest :=
  splitNAux_cons ':' 1 a rest ha

/-- Specialization of `splitNAux_cons` at budget 2. -/
theorem splitNAux_cons2 (a rest : List Char) (ha : ':' ∉ a) :
    splitNAux ':' 2 (a ++ ':' :: rest) = a :: splitNAux ':' 1 rest :=
  splitNAux_cons ':' 0 a rest ha

/-- A line built from four separator-free fields and an arbitrary final
field splits under `SplitN _ ":" 5` into exactly those five fields: the
fifth keeps the remainder verbatim, colons included. -/
theorem splitN_five (a b c d e line : String)
    (hline : line.data = a.data ++ (':' :: (b.data ++ (':' :: (c.data ++
      (':' :: (d.data ++ (':' :: e.data))))))))
    (ha : ':' ∉ a.data) (hb : ':' ∉ b.data) (hc : ':' ∉ c.data)
    (hd : ':' ∉ d.data) :
    splitN line ':' 5 = [a, b, c, d, e] := by
  unfold splitN
  rw [hline, splitNAux_cons5 a.data _ ha, splitNAux_cons4 b.data _ hb,
    splitNAux_cons3 c.data _ hc, splitNAux_cons2 d.data _ hd,
    splitNAux_one]
  rfl

/-- C5: for a selected matching line with separator-free first four
fields, the returned record's host, port and database equal the file's
literal field unless that field is `*` or empty (then the query's value);
username and password come verbatim from the file, the password being the
whole remainder after the fourth colon, any further colons included. -/
theorem C5_result_composition (p : Parser) (a b c d e line : String)
    (hline : line.data = a.data ++ (':' :: (b.data ++ (':' :: (c.data ++
      (':' :: (d.data ++ (':' :: e.data))))))))
    (ha : ':' ∉ a.data) (hb : ':' ∉ b.data) (hc : ':' ∉ c.data)
    (hd : ':' ∉ d.data)
    (hcmt : isComment line = false)
    (h0 : chkForMatch p.Host a = true) (h1 : chkForMatch p.Port b = true)
    (h2 : chkForMatch p.DbName c = true)
    (h3 : chkForMatch p.Username d = true) :
    processLine p line =
      some { zeroParser with
        Host := if a = "*" ∨ a = "" then p.Host else a
        Port := if b = "*" ∨ b = "" then p.Port else b
        DbName := if c = "*" ∨ c = "" then p.DbName else c
        Username := d
        Password := e } := by
  unfold processLine
  rw [splitN_five a b c d e line hline ha hb hc hd]
  simp [hcmt, h0, h1, h2, h3, pickParm_eq_ite]

/-- C5, witness: the line `host:1521:db:user:pa:ss:word` yields password
`pa:ss:word`. -/
theorem C5_witness :
    processLine qC5 "host:1521:db:user:pa:ss:word" =
      some { zeroParser with
        Host := "host"
        Port := "1521"
        DbName := "db"
        Username := "user"
        Password := "pa:ss:word" } := by
  have h := C5_result_composition qC5 "host" "1521" "db" "user" "pa:ss:word"
    "host:1521:db:user:pa:ss:word" (by decide) (by decide) (by decide)
    (by decide) (by decide) (by decide) (by decide) (by decide) (by decide)
    (by decide)
  exact h.trans (by decide)

/-! ### C10 -/

/-- C10: a line whose fifth field is empty still splits into exactly five
fields and is a valid entry: when the first four fields match, the scan
succeeds with the password equal to the empty string. -/
theorem C10_empty_fifth_field (p : Parser) (a b c d line : String)
    (hline : line.data = a.data ++ (':' :: (b.data ++ (':' :: (c.data ++
      (':' :: (d.data ++ [':'])))))))
    (ha : ':' ∉ a.data) (hb : ':' ∉ b.data) (hc : ':' ∉ c.data)
    (hd : ':' ∉ d.data)
    (hcmt : isComment line = false)
    (h0 : chkForMatch p.Host a = true) (h1 : chkForMatch p.Port b = true)
    (h2 : chkForMatch p.DbName c = true)
    (h3 : chkForMatch p.Username d = true) :
    (splitN line ':' 5).length = 5 ∧
    scanLines p [line] =
      ({ zeroParser with
        Host := pickParm p.Host a
        Port := pickParm p.Port b
        DbName := pickParm p.DbName c
        Username := d
        Password := "" }, none) := by
  have hsp := splitN_five a b c d "" line hline ha hb hc hd
  have hpl : processLine p line =
      some { zeroParser with
        Host := pickParm p.Host a
        Port := pickParm p.Port b
        DbName := pickParm p.DbName c
        Username := d
        Password := "" } := by
    unfold processLine
    rw [hsp]
    simp [hcmt, h0, h1, h2, h3]
  refine ⟨by rw [hsp]; rfl, ?_⟩
  unfold scanLines
  rw [hpl]

/-- C10, witness: the line `host:1521:db:user:` matches the literal query
and yields the empty password. -/
theorem C10_witness :
    (splitN "host:1521:db:user:" ':' 5).length = 5 ∧
    scanLines qC5 ["host:1521:db:user:"] =
      ({ zeroParser with
        Host := "host"
        Port := "1521"
        DbName := "db"
        Username := "user"
        Password := "" }, none) := by
  have h := C10_empty_fifth_field qC5 "host" "1521" "db" "user"
    "host:1521:db:user:" (by decide) (by decide) (by decide) (by decide)
    (by decide) (by decide) (by decide) (by decide) (by decide) (by decide)
  exact ⟨h.1, h.2.trans (by decide)⟩

end Orapass
